import Mathlib

/-!
Verification of the per-call relay session of the elevenlabs-twilio bridge
(`src/inbound-calls.js`, defensive variant, and `src/unnamed/part_000`, lenient
variant).  The session state, the Twilio-side message handler, the
ElevenLabs-side message handler and the shutdown coordinator `closeWithCode`
are embedded as executable Lean functions; Node's lenient base64
decode/re-encode (`Buffer.from(s, "base64").toString("base64")`) and the
validation regex of the audio case are modelled exactly.
-/

namespace Relay

/-- JS string truthiness of a possibly-null string (`null` and `""` are falsy). -/
def strTruthy : Option String → Bool
  | none => false
  | some s => !(s == "")

/-! ## Base64, as Node's `Buffer` implements it

`Buffer.from(s, "base64")` maps each character through the base64 table
(accepting both the standard and the URL-safe alphabet), skips characters that
are in neither alphabet, stops at the first `=`, and converts the collected
sextets to bytes (a trailing single sextet yields no byte).
`buf.toString("base64")` produces the canonical padded encoding. -/

/-- Value of one character in Node's base64 decoding table: standard alphabet
plus the URL-safe `-` and `_`; `none` for every other character. -/
def b64CharVal (c : Char) : Option Nat :=
  if 'A' ≤ c ∧ c ≤ 'Z' then some (c.toNat - 'A'.toNat)
  else if 'a' ≤ c ∧ c ≤ 'z' then some (c.toNat - 'a'.toNat + 26)
  else if '0' ≤ c ∧ c ≤ '9' then some (c.toNat - '0'.toNat + 52)
  else if c = '+' ∨ c = '-' then some 62
  else if c = '/' ∨ c = '_' then some 63
  else none

/-- The canonical base64 character for a sextet value (0..63). -/
def sextetChar (v : Nat) : Char :=
  if v < 26 then Char.ofNat ('A'.toNat + v)
  else if v < 52 then Char.ofNat ('a'.toNat + (v - 26))
  else if v < 62 then Char.ofNat ('0'.toNat + (v - 52))
  else if v = 62 then '+'
  else '/'

/-- Collect the sextet values of a character list the way Node's decoder does:
stop at the first `=`, skip characters outside both alphabets. -/
def b64Sextets : List Char → List Nat
  | [] => []
  | c :: rest =>
    if c = '=' then []
    else
      match b64CharVal c with
      | some v => v :: b64Sextets rest
      | none => b64Sextets rest

/-- Convert sextets to bytes: each full group of four sextets yields three
bytes, a trailing pair or triple yields one or two bytes, a single trailing
sextet yields nothing. -/
def sextetsToBytes : List Nat → List Nat
  | v1 :: v2 :: v3 :: v4 :: rest =>
    (v1 * 4 + v2 / 16) :: (v2 % 16 * 16 + v3 / 4) :: (v3 % 4 * 64 + v4) ::
      sextetsToBytes rest
  | [v1, v2] => [v1 * 4 + v2 / 16]
  | [v1, v2, v3] => [v1 * 4 + v2 / 16, v2 % 16 * 16 + v3 / 4]
  | _ => []

/-- Canonical padded base64 encoding of a byte list (`buf.toString("base64")`). -/
def b64EncodeBytes : List Nat → List Char
  | [] => []
  | [b1] => [sextetChar (b1 / 4), sextetChar (b1 % 4 * 16), '=', '=']
  | [b1, b2] =>
    [sextetChar (b1 / 4), sextetChar (b1 % 4 * 16 + b2 / 16),
     sextetChar (b2 % 16 * 4), '=']
  | b1 :: b2 :: b3 :: rest =>
    sextetChar (b1 / 4) :: sextetChar (b1 % 4 * 16 + b2 / 16) ::
    sextetChar (b2 % 16 * 4 + b3 / 64) :: sextetChar (b3 % 64) ::
    b64EncodeBytes rest

/-- `Buffer.from(s, "base64")` -/
def b64DecodeStr (s : String) : List Nat :=
  sextetsToBytes (b64Sextets s.data)

/-- `Buffer.from(s, "base64").toString("base64")`: the transform the media
case of the Twilio handler applies to the payload before forwarding. -/
def b64Reencode (s : String) : String :=
  String.mk (b64EncodeBytes (b64DecodeStr s))

/-- One character of the validation regex `/^[A-Za-z0-9+\x2f=]+$/` used by the
audio case of `handleElevenLabsMessage`. -/
def isB64CharClass (c : Char) : Bool :=
  decide ('A' ≤ c ∧ c ≤ 'Z') || decide ('a' ≤ c ∧ c ≤ 'z') ||
  decide ('0' ≤ c ∧ c ≤ '9') || c == '+' || c == '/' || c == '='

/-- The whole regex test: at least one character, all in the class. -/
def isBase64Str (s : String) : Bool :=
  !(s == "") && s.data.all isB64CharClass

lemma b64CharVal_sextetChar_fin :
    ∀ v : Fin 64, b64CharVal (sextetChar v.val) = some v.val ∧
      sextetChar v.val ≠ '=' := by decide

lemma b64CharVal_sextetChar (v : Nat) (hv : v < 64) :
    b64CharVal (sextetChar v) = some v ∧ sextetChar v ≠ '=' :=
  b64CharVal_sextetChar_fin ⟨v, hv⟩

lemma b64Sextets_cons_sextetChar (v : Nat) (hv : v < 64) (l : List Char) :
    b64Sextets (sextetChar v :: l) = v :: b64Sextets l := by
  have h := b64CharVal_sextetChar v hv
  simp only [b64Sextets]
  rw [if_neg h.2, h.1]

/-- Round trip: Node's lenient decode inverts the canonical encoder, so the
media-case transform is the identity on canonical base64 payloads. -/
theorem b64_decode_encode :
    ∀ bs : List Nat, (∀ b ∈ bs, b < 256) →
      sextetsToBytes (b64Sextets (b64EncodeBytes bs)) = bs
  | [], _ => rfl
  | [b1], h => by
    have hb1 : b1 < 256 := h b1 (by simp)
    simp only [b64EncodeBytes]
    rw [b64Sextets_cons_sextetChar _ (by omega),
        b64Sextets_cons_sextetChar _ (by omega)]
    show sextetsToBytes [b1 / 4, b1 % 4 * 16] = [b1]
    simp only [sextetsToBytes, List.cons.injEq, and_true]
    omega
  | [b1, b2], h => by
    have hb1 : b1 < 256 := h b1 (by simp)
    have hb2 : b2 < 256 := h b2 (by simp)
    simp only [b64EncodeBytes]
    rw [b64Sextets_cons_sextetChar _ (by omega),
        b64Sextets_cons_sextetChar _ (by omega),
        b64Sextets_cons_sextetChar _ (by omega)]
    show sextetsToBytes [b1 / 4, b1 % 4 * 16 + b2 / 16, b2 % 16 * 4] = [b1, b2]
    simp only [sextetsToBytes, List.cons.injEq, and_true]
    constructor <;> omega
  | b1 :: b2 :: b3 :: rest, h => by
    have hb1 : b1 < 256 := h b1 (by simp)
    have hb2 : b2 < 256 := h b2 (by simp)
    have hb3 : b3 < 256 := h b3 (by simp)
    have ih : sextetsToBytes (b64Sextets (b64EncodeBytes rest)) = rest :=
      b64_decode_encode rest (fun b hb => h b (by simp [hb]))
    simp only [b64EncodeBytes]
    rw [b64Sextets_cons_sextetChar _ (by omega),
        b64Sextets_cons_sextetChar _ (by omega),
        b64Sextets_cons_sextetChar _ (by omega),
        b64Sextets_cons_sextetChar _ (by omega)]
    simp only [sextetsToBytes, ih, List.cons.injEq, and_true]
    refine ⟨by omega, by omega, by omega⟩

/-- String-level round trip: re-encoding a canonical base64 string is the
identity. -/
theorem b64Reencode_canonical (bs : List Nat) (h : ∀ b ∈ bs, b < 256) :
    b64Reencode (String.mk (b64EncodeBytes bs)) =
      String.mk (b64EncodeBytes bs) := by
  unfold b64Reencode b64DecodeStr
  rw [show (String.mk (b64EncodeBytes bs)).data = b64EncodeBytes bs from rfl,
      b64_decode_encode bs h]

/-! ## Data model

One `Session` per accepted `/media-stream` connection, mirroring the closure
variables `streamSid`, `elevenLabsWs`, `isClosing` of the defensive variant,
the readyState of the Twilio socket, the pending `getSignedUrl` promise and
the pending `connectionTimeout` timer. -/

/-- WebSocket readyState as used by the `ws` library. -/
inductive ReadyState
  | connecting
  | opened
  | closing
  | closed
deriving DecidableEq

/-- Outbound JSON frames to the Twilio leg. -/
inductive TwilioFrame
  | media (streamSid : Option String) (payload : String)
  | clear (streamSid : Option String)
deriving DecidableEq

/-- Outbound JSON frames to the ElevenLabs leg. -/
inductive ProviderFrame
  | userAudioChunk (payload : String)
  | pong (eventId : String)
deriving DecidableEq

/-- Observable side effects of one handler invocation. -/
inductive Action
  | closeProvider (code : Nat) (reason : String)
  | closeTwilio (code : Nat) (reason : String)
  | sendProvider (f : ProviderFrame)
  | sendTwilio (f : TwilioFrame)
  | openProvider (url : String)
  | setConnectTimeout
  | fetchSignedUrl
deriving DecidableEq

/-- Per-connection session state. -/
structure Session where
  streamSid : Option String
  providerConn : Option ReadyState
  isClosing : Bool
  twilioReady : ReadyState
  fetchPending : Bool
  connectTimeoutActive : Bool
deriving DecidableEq

/-- State at `connection` acceptance: `streamSid = null`,
`elevenLabsWs = null`, `isClosing = false`, Twilio socket open. -/
def initSession : Session :=
  { streamSid := none, providerConn := none, isClosing := false,
    twilioReady := ReadyState.opened, fetchPending := false,
    connectTimeoutActive := false }

/-- A decoded Twilio message (`data` after `JSON.parse`), keyed on `data.event`.
`start`/`media` carry `data.start?.streamSid` / `data.media?.payload`, with
`none` for a missing object or field. `invalid` is `!data || !data.event`. -/
inductive TwilioEvent
  | start (streamSid : Option String)
  | media (payload : Option String)
  | stop
  | other (ev : String)
  | invalid
deriving DecidableEq

/-- A decoded ElevenLabs message, keyed on `message.type`; `nonObject` is the
`!message || typeof message !== 'object'` guard; the payload fields model
`message.audio_event?.audio_base_64` and `message.ping_event?.event_id`. -/
inductive ElMessage
  | nonObject
  | initMetadata
  | audio (payload : Option String)
  | interruption
  | ping (eventId : Option String)
  | other (ty : String)
deriving DecidableEq

/-- Frames produced by one `handleElevenLabsMessage` invocation, per leg. -/
structure ElOut where
  toTwilio : List TwilioFrame
  toProvider : List ProviderFrame
deriving DecidableEq

/-! ## The two `handleElevenLabsMessage` variants -/

/-- `handleElevenLabsMessage` of `src/inbound-calls.js` (defensive variant):
drops non-objects; ignores `conversation_initiation_metadata`; on `audio`
requires a truthy `audio_base_64`, a truthy `streamSid` and the regex test,
then sends `{event:"media", streamSid, media:{payload}}` with the payload
unchanged; on `interruption` sends `{event:"clear", streamSid}`; on `ping`
with a truthy `event_id` replies `{type:"pong", event_id}` to the provider;
ignores unknown types.  It never closes either leg and never mutates the
session. -/
def handleElevenLabsMessage (streamSid : Option String) (msg : ElMessage) :
    ElOut :=
  match msg with
  | ElMessage.nonObject => ⟨[], []⟩
  | ElMessage.initMetadata => ⟨[], []⟩
  | ElMessage.audio p =>
    if strTruthy p = false then ⟨[], []⟩
    else if strTruthy streamSid = false then ⟨[], []⟩
    else if isBase64Str (p.getD "") = false then ⟨[], []⟩
    else ⟨[TwilioFrame.media streamSid (p.getD "")], []⟩
  | ElMessage.interruption => ⟨[TwilioFrame.clear streamSid], []⟩
  | ElMessage.ping eid =>
    if strTruthy eid = false then ⟨[], []⟩
    else ⟨[], [ProviderFrame.pong (eid.getD "")]⟩
  | ElMessage.other _ => ⟨[], []⟩

/-- `handleElevenLabsMessage` of `src/unnamed/part_000` (lenient variant);
its body is line-for-line the same switch as the defensive variant. -/
def handleElevenLabsMessageLenient (streamSid : Option String)
    (msg : ElMessage) : ElOut :=
  match msg with
  | ElMessage.nonObject => ⟨[], []⟩
  | ElMessage.initMetadata => ⟨[], []⟩
  | ElMessage.audio p =>
    if strTruthy p = false then ⟨[], []⟩
    else if strTruthy streamSid = false then ⟨[], []⟩
    else if isBase64Str (p.getD "") = false then ⟨[], []⟩
    else ⟨[TwilioFrame.media streamSid (p.getD "")], []⟩
  | ElMessage.interruption => ⟨[TwilioFrame.clear streamSid], []⟩
  | ElMessage.ping eid =>
    if strTruthy eid = false then ⟨[], []⟩
    else ⟨[], [ProviderFrame.pong (eid.getD "")]⟩
  | ElMessage.other _ => ⟨[], []⟩

/-! ## Shutdown coordinator and the Twilio-side handler (defensive variant) -/

/-- `closeWithCode(code, reason)`: guarded by the monotonic `isClosing` flag;
the first call closes the ElevenLabs socket with `(1000, "Closing normally")`
if it is open and the Twilio socket with `(code, reason)` if it is open
(`ws.close` moves a socket's readyState to closing); later calls do nothing. -/
def closeWithCode (code : Nat) (reason : String) (s : Session) :
    Session × List Action :=
  if s.isClosing then (s, [])
  else
    let provActs :=
      if s.providerConn = some ReadyState.opened
      then [Action.closeProvider 1000 "Closing normally"] else []
    let provConn :=
      if s.providerConn = some ReadyState.opened
      then some ReadyState.closing else s.providerConn
    let twActs :=
      if s.twilioReady = ReadyState.opened
      then [Action.closeTwilio code reason] else []
    let twReady :=
      if s.twilioReady = ReadyState.opened
      then ReadyState.closing else s.twilioReady
    ({ s with isClosing := true, providerConn := provConn,
              twilioReady := twReady },
     provActs ++ twActs)

/-- The `start` case before the `await`: on a falsy `streamSid`,
`closeWithCode(1003, "Missing streamSid")`; otherwise record the stream id and
call `getSignedUrl()` (the fetch becomes pending). -/
def startReceive (sid : Option String) (s : Session) : Session × List Action :=
  if strTruthy sid = false then closeWithCode 1003 "Missing streamSid" s
  else ({ s with streamSid := sid, fetchPending := true },
        [Action.fetchSignedUrl])

/-- The `media` case: return unless `elevenLabsWs` exists and is open; return
on a missing or falsy payload; otherwise send
`{user_audio_chunk: Buffer.from(payload, "base64").toString("base64")}`. -/
def mediaReceive (p : Option String) (s : Session) : Session × List Action :=
  if s.providerConn = some ReadyState.opened then
    if strTruthy p = false then (s, [])
    else (s, [Action.sendProvider
                (ProviderFrame.userAudioChunk (b64Reencode (p.getD "")))])
  else (s, [])

/-- The switch of the Twilio `message` handler. -/
def twilioMsgStep (e : TwilioEvent) (s : Session) : Session × List Action :=
  match e with
  | TwilioEvent.invalid => closeWithCode 1003 "Invalid message format" s
  | TwilioEvent.start sid => startReceive sid s
  | TwilioEvent.media p => mediaReceive p s
  | TwilioEvent.stop => closeWithCode 1000 "Stop event received" s
  | TwilioEvent.other _ => (s, [])

/-- Asynchronous notifications a session reacts to. -/
inductive Event
  | twilioMsg (e : TwilioEvent)
  | twilioParseError
  | fetchResolves (result : Except String String)
  | providerOpen
  | providerMsg (m : ElMessage)
  | providerError
  | providerClose (code : Nat) (reason : String)
  | twilioClose (code : Nat) (reason : String)
  | twilioError
  | connectTimerFire

/-- One event-handler invocation of the defensive variant.
- `fetchResolves`: continuation of the `start` case after
  `await getSignedUrl()` — on success `elevenLabsWs = new WebSocket(url)` and
  the 10s `connectionTimeout` is set; on failure the catch block runs
  `closeWithCode(1011, "Failed to initialize ElevenLabs connection")`.
- `providerOpen`: `clearTimeout(connectionTimeout)`.
- `providerMsg`: returns if the Twilio socket is not open, else dispatches
  to `handleElevenLabsMessage`.
- `providerError` / `providerClose` / `twilioClose` / `twilioError`: the
  registered close/error handlers, all funnelling into `closeWithCode`.
- `connectTimerFire`: the timer callback, closing with 1006 unless the
  provider socket reached the open state. -/
def step (ev : Event) (s : Session) : Session × List Action :=
  match ev with
  | Event.twilioMsg e => twilioMsgStep e s
  | Event.twilioParseError => closeWithCode 1003 "Message processing error" s
  | Event.fetchResolves r =>
    if s.fetchPending then
      let s0 := { s with fetchPending := false }
      match r with
      | Except.ok url =>
        ({ s0 with providerConn := some ReadyState.connecting,
                   connectTimeoutActive := true },
         [Action.openProvider url, Action.setConnectTimeout])
      | Except.error _ =>
        closeWithCode 1011 "Failed to initialize ElevenLabs connection" s0
    else (s, [])
  | Event.providerOpen =>
    match s.providerConn with
    | none => (s, [])
    | some _ =>
      ({ s with providerConn := some ReadyState.opened,
                connectTimeoutActive := false }, [])
  | Event.providerMsg m =>
    match s.providerConn with
    | none => (s, [])
    | some _ =>
      if s.twilioReady = ReadyState.opened then
        (s, (handleElevenLabsMessage s.streamSid m).toTwilio.map
              Action.sendTwilio ++
            (handleElevenLabsMessage s.streamSid m).toProvider.map
              Action.sendProvider)
      else (s, [])
  | Event.providerError =>
    match s.providerConn with
    | none => (s, [])
    | some _ => closeWithCode 1011 "ElevenLabs WebSocket error" s
  | Event.providerClose c r =>
    match s.providerConn with
    | none => (s, [])
    | some _ => closeWithCode c r { s with providerConn := some ReadyState.closed }
  | Event.twilioClose c r =>
    closeWithCode (if c = 0 then 1000 else c)
      (if r = "" then "Connection closed" else r)
      { s with twilioReady := ReadyState.closed }
  | Event.twilioError =>
    closeWithCode 1011 "Twilio WebSocket error" s
  | Event.connectTimerFire =>
    if s.connectTimeoutActive then
      let s0 := { s with connectTimeoutActive := false }
      if s.providerConn = some ReadyState.opened then (s0, [])
      else closeWithCode 1006 "ElevenLabs connection timeout" s0
    else (s, [])

/-- Run a list of events from a state, concatenating the emitted actions. -/
def run : List Event → Session → Session × List Action
  | [], s => (s, [])
  | e :: es, s =>
    let p := step e s
    let q := run es p.1
    (q.1, p.2 ++ q.2)

/-- A sequence of `closeWithCode` calls, threading the state. -/
def closeCalls : List (Nat × String) → Session → Session × List Action
  | [], s => (s, [])
  | (c, r) :: rest, s =>
    let p := closeWithCode c r s
    let q := closeCalls rest p.1
    (q.1, p.2 ++ q.2)

/-! ## Helper lemmas -/

lemma closeWithCode_noop (c : Nat) (r : String) (s : Session)
    (h : s.isClosing = true) : closeWithCode c r s = (s, []) := by
  unfold closeWithCode
  rw [if_pos h]

lemma closeWithCode_isClosing (c : Nat) (r : String) (s : Session) :
    ((closeWithCode c r s).1).isClosing = true := by
  unfold closeWithCode
  split
  · assumption
  · rfl

lemma closeWithCode_streamSid (c : Nat) (r : String) (s : Session) :
    ((closeWithCode c r s).1).streamSid = s.streamSid := by
  unfold closeWithCode
  split <;> rfl

lemma closeWithCode_fetchPending (c : Nat) (r : String) (s : Session) :
    ((closeWithCode c r s).1).fetchPending = s.fetchPending := by
  unfold closeWithCode
  split <;> rfl

lemma closeWithCode_providerConn_none (c : Nat) (r : String) (s : Session) :
    ((closeWithCode c r s).1).providerConn = none ↔ s.providerConn = none := by
  unfold closeWithCode
  split
  · exact Iff.rfl
  · show (if s.providerConn = some ReadyState.opened
          then some ReadyState.closing else s.providerConn) = none ↔ _
    split
    · simp_all
    · exact Iff.rfl

lemma closeCalls_noop (l : List (Nat × String)) (s : Session)
    (h : s.isClosing = true) : closeCalls l s = (s, []) := by
  induction l with
  | nil => rfl
  | cons p rest ih =>
    obtain ⟨c, r⟩ := p
    simp only [closeCalls, closeWithCode_noop c r s h, ih, List.nil_append]

/-- The reachability invariant behind "no media before start": while no valid
`start` event has set a truthy stream id, no provider socket exists and no
signed-URL fetch is pending. -/
def SidInv (s : Session) : Prop :=
  strTruthy s.streamSid = false → s.providerConn = none ∧ s.fetchPending = false

lemma closeWithCode_inv (c : Nat) (r : String) (s : Session) (h : SidInv s) :
    SidInv ((closeWithCode c r s).1) := by
  intro hsid
  rw [closeWithCode_streamSid] at hsid
  obtain ⟨h1, h2⟩ := h hsid
  rw [closeWithCode_providerConn_none, closeWithCode_fetchPending]
  exact ⟨h1, h2⟩

lemma step_preserves_inv (e : Event) (s : Session) (h : SidInv s) :
    SidInv ((step e s).1) := by
  cases e with
  | twilioMsg te =>
    simp only [step]
    cases te with
    | start sid =>
      simp only [twilioMsgStep, startReceive]
      split
      · exact closeWithCode_inv _ _ _ h
      · next hsid =>
        intro hs
        exact absurd hs hsid
    | media p =>
      simp only [twilioMsgStep, mediaReceive]
      split
      · split <;> exact h
      · exact h
    | stop => exact closeWithCode_inv _ _ _ h
    | other ev1 => exact h
    | invalid => exact closeWithCode_inv _ _ _ h
  | twilioParseError =>
    simp only [step]
    exact closeWithCode_inv _ _ _ h
  | fetchResolves r =>
    simp only [step]
    split
    · next hf =>
      cases r with
      | ok url =>
        intro hsid
        exact absurd (h hsid).2 (by simp [hf])
      | error e1 =>
        apply closeWithCode_inv
        intro hsid
        exact absurd (h hsid).2 (by simp [hf])
    · exact h
  | providerOpen =>
    simp only [step]
    cases hc : s.providerConn with
    | none => exact h
    | some rs =>
      intro hsid
      exact absurd (h hsid).1 (by simp [hc])
  | providerMsg m =>
    simp only [step]
    cases hc : s.providerConn with
    | none => exact h
    | some rs => split <;> first | exact h | (split <;> exact h)
  | providerError =>
    simp only [step]
    cases hc : s.providerConn with
    | none => exact h
    | some rs => exact closeWithCode_inv _ _ _ h
  | providerClose c r =>
    simp only [step]
    cases hc : s.providerConn with
    | none => exact h
    | some rs =>
      apply closeWithCode_inv
      intro hsid
      exact absurd (h hsid).1 (by simp [hc])
  | twilioClose c r =>
    simp only [step]
    apply closeWithCode_inv
    intro hsid
    exact h hsid
  | twilioError =>
    simp only [step]
    exact closeWithCode_inv _ _ _ h
  | connectTimerFire =>
    simp only [step]
    split
    · split
      · intro hsid
        exact h hsid
      · apply closeWithCode_inv
        intro hsid
        exact h hsid
    · exact h

lemma run_inv_general (tr : List Event) (s : Session) (h : SidInv s) :
    SidInv ((run tr s).1) := by
  induction tr generalizing s with
  | nil => exact h
  | cons e es ih =>
    simp only [run]
    exact ih _ (step_preserves_inv e s h)

lemma run_inv (tr : List Event) : SidInv ((run tr initSession).1) :=
  run_inv_general tr initSession (fun _ => ⟨rfl, rfl⟩)

lemma closeWithCode_open_actions (c : Nat) (r : String) (s : Session)
    (h : s.isClosing = false) (hp : s.providerConn = some ReadyState.opened)
    (ht : s.twilioReady = ReadyState.opened) :
    (closeWithCode c r s).2 =
      [Action.closeProvider 1000 "Closing normally", Action.closeTwilio c r] := by
  unfold closeWithCode
  rw [if_neg (by simp [h])]
  simp [hp, ht]

/-- A session in the `Active` state: stream id recorded, both legs open. -/
def openSession : Session :=
  { streamSid := some "SID1", providerConn := some ReadyState.opened,
    isClosing := false, twilioReady := ReadyState.opened,
    fetchPending := false, connectTimeoutActive := false }

/-- A session awaiting the signed-URL fetch: stream id recorded, no provider
socket yet, Twilio leg open. -/
def pendingSession : Session :=
  { streamSid := some "SID1", providerConn := none, isClosing := false,
    twilioReady := ReadyState.opened, fetchPending := true,
    connectTimeoutActive := false }

/-- A session in the `ConnectingProvider` state: provider socket created,
handshake not finished, connect timer armed. -/
def connectingSession : Session :=
  { streamSid := some "SID1",
    providerConn := some ReadyState.connecting, isClosing := false,
    twilioReady := ReadyState.opened, fetchPending := false,
    connectTimeoutActive := true }

/-- A valid `start` event followed by the Twilio socket closing while the
signed-URL fetch is still in flight. -/
def closingTrace : List Event :=
  [Event.twilioMsg (TwilioEvent.start (some "SID1")),
   Event.twilioClose 1000 "client gone"]

/-! ## Claim theorems -/

/-- C1: `closeWithCode` is idempotent.  From a not-yet-closing session with
both legs open, the first call closes the provider leg with the normal
closure code and the Twilio leg with the given code and reason, and sets the
monotonic `isClosing` flag; any further call on the resulting state is a
no-op, so a sequence of N ≥ 1 calls performs exactly the close actions of the
first call. -/
theorem closeWithCode_idempotent (s : Session) (c : Nat) (r : String)
    (c2 : Nat) (r2 : String) (rest : List (Nat × String))
    (h : s.isClosing = false) (hp : s.providerConn = some ReadyState.opened)
    (ht : s.twilioReady = ReadyState.opened) :
    (closeWithCode c r s).2 =
      [Action.closeProvider 1000 "Closing normally", Action.closeTwilio c r] ∧
    ((closeWithCode c r s).1).isClosing = true ∧
    closeWithCode c2 r2 ((closeWithCode c r s).1) =
      ((closeWithCode c r s).1, []) ∧
    (closeCalls ((c, r) :: rest) s).2 = (closeWithCode c r s).2 := by
  refine ⟨closeWithCode_open_actions c r s h hp ht,
          closeWithCode_isClosing c r s,
          closeWithCode_noop c2 r2 _ (closeWithCode_isClosing c r s), ?_⟩
  simp only [closeCalls,
    closeCalls_noop rest _ (closeWithCode_isClosing c r s), List.append_nil]

/-- C1 witness: a concrete session with both legs open, closed twice. -/
theorem closeWithCode_idempotent_witness :
    openSession.isClosing = false ∧
    openSession.providerConn = some ReadyState.opened ∧
    openSession.twilioReady = ReadyState.opened ∧
    ((closeWithCode 1011 "err" openSession).2 =
       [Action.closeProvider 1000 "Closing normally",
        Action.closeTwilio 1011 "err"] ∧
     ((closeWithCode 1011 "err" openSession).1).isClosing = true ∧
     closeWithCode 1000 "again" ((closeWithCode 1011 "err" openSession).1) =
       ((closeWithCode 1011 "err" openSession).1, []) ∧
     (closeCalls [(1011, "err"), (1000, "again")] openSession).2 =
       (closeWithCode 1011 "err" openSession).2) :=
  ⟨rfl, rfl, rfl,
   closeWithCode_idempotent openSession 1011 "err" 1000 "again"
     [(1000, "again")] rfl rfl rfl⟩

/-- C2: no media frame reaches the provider leg before a valid `start` event
has set a truthy stream identifier (in any reachable state with the stream id
still unset, a Twilio media event emits nothing), and more generally a media
event arriving while the provider socket is absent or not open results in no
send to the provider. -/
theorem no_media_before_start (tr : List Event) (p : Option String)
    (t : Session)
    (h : strTruthy ((run tr initSession).1).streamSid = false)
    (ht : t.providerConn ≠ some ReadyState.opened) :
    (step (Event.twilioMsg (TwilioEvent.media p)) ((run tr initSession).1)).2 =
      [] ∧
    (step (Event.twilioMsg (TwilioEvent.media p)) t).2 = [] := by
  have key : ∀ u : Session, u.providerConn ≠ some ReadyState.opened →
      (step (Event.twilioMsg (TwilioEvent.media p)) u).2 = [] := by
    intro u hu
    simp only [step, twilioMsgStep, mediaReceive]
    rw [if_neg hu]
  refine ⟨?_, key t ht⟩
  have hnone := (run_inv tr h).1
  exact key _ (by simp [hnone])

/-- C2 witness: the freshly accepted session has no stream id and no provider
socket; a media event emits nothing. -/
theorem no_media_before_start_witness :
    strTruthy ((run [] initSession).1).streamSid = false ∧
    initSession.providerConn ≠ some ReadyState.opened ∧
    ((step (Event.twilioMsg (TwilioEvent.media (some "QUJD")))
        ((run [] initSession).1)).2 = [] ∧
     (step (Event.twilioMsg (TwilioEvent.media (some "QUJD")))
        initSession).2 = []) :=
  ⟨rfl, by decide,
   no_media_before_start [] (some "QUJD") initSession rfl (by decide)⟩

/-- C3 counterexample: with the stream identifier set, a provider audio event
whose payload is the empty string — a payload containing no character outside
the base64 alphabet — is dropped by the truthiness guard on `audio_base_64`,
not forwarded as the claim's dichotomy requires. -/
theorem audio_empty_payload_dropped :
    strTruthy (some "SID1") = true ∧
    (("" : String).data.all isB64CharClass) = true ∧
    handleElevenLabsMessage (some "SID1") (ElMessage.audio (some "")) =
      ElOut.mk [] [] ∧
    handleElevenLabsMessage (some "SID1") (ElMessage.audio (some "")) ≠
      ElOut.mk [TwilioFrame.media (some "SID1") ""] [] := by decide

/-- C3 (amended): a provider audio event is forwarded to the telephony leg,
unchanged and wrapped as a media frame tagged with the stream id, exactly when
the payload is present and non-empty, the stream identifier is set, and the
payload passes the base64 character-class regex (which also requires at least
one character); otherwise — unset stream id, absent or empty payload, or a
character outside the alphabet — it is dropped without closing the session or
mutating any session state. -/
theorem audio_case_behavior (sid : Option String) (p : Option String)
    (s : Session) :
    handleElevenLabsMessage sid (ElMessage.audio p) =
      (if strTruthy p && strTruthy sid && isBase64Str (p.getD "")
       then ElOut.mk [TwilioFrame.media sid (p.getD "")] []
       else ElOut.mk [] []) ∧
    (step (Event.providerMsg (ElMessage.audio p)) s).1 = s := by
  constructor
  · simp only [handleElevenLabsMessage]
    cases hp : strTruthy p <;> cases hsid : strTruthy sid <;>
      cases hb : isBase64Str (p.getD "") <;> simp [hp, hsid, hb]
  · simp only [step]
    cases hc : s.providerConn with
    | none => rfl
    | some rs => split <;> first | rfl | (split <;> rfl)

/-- C4 counterexample: "####" is rejected by the base64 character-class check,
yet the media case of the Twilio handler — which performs no validation —
still forwards a frame to the provider (the lenient decode skips every
invalid character, so the forwarded chunk is empty) instead of dropping it. -/
theorem media_invalid_forwarded :
    isBase64Str "####" = false ∧
    (step (Event.twilioMsg (TwilioEvent.media (some "####"))) openSession).2 =
      [Action.sendProvider (ProviderFrame.userAudioChunk "")] := by decide

/-- C4 (amended): while the provider connection is open, the media case
requires a non-empty payload but does not validate it — the payload is passed
through Node's lenient base64 decode and re-encoded, and the result is always
forwarded as a `user_audio_chunk`; on canonical base64 payloads (any encoder
output, e.g. "QUJD") this transform is the identity, so such payloads are
forwarded unchanged. -/
theorem media_forward_behavior (s : Session) (p : String) (bs : List Nat)
    (hconn : s.providerConn = some ReadyState.opened)
    (hbs : bs.all (fun b => decide (b < 256)) = true) :
    step (Event.twilioMsg (TwilioEvent.media (some p))) s =
      (if p = "" then (s, [])
       else (s, [Action.sendProvider
                   (ProviderFrame.userAudioChunk (b64Reencode p))])) ∧
    b64Reencode (String.mk (b64EncodeBytes bs)) =
      String.mk (b64EncodeBytes bs) ∧
    (step (Event.twilioMsg (TwilioEvent.media none)) s).2 = [] := by
  refine ⟨?_, b64Reencode_canonical bs ?_, ?_⟩
  · by_cases hp : p = "" <;>
      simp [step, twilioMsgStep, mediaReceive, hconn, strTruthy, hp]
  · intro b hb
    exact of_decide_eq_true (List.all_eq_true.mp hbs b hb)
  · simp [step, twilioMsgStep, mediaReceive, hconn, strTruthy]

/-- C4 witness: the spec scenario — payload "QUJD" while active is forwarded
verbatim as a `user_audio_chunk`. -/
theorem media_forward_behavior_witness :
    openSession.providerConn = some ReadyState.opened ∧
    ([65, 66, 67] : List Nat).all (fun b => decide (b < 256)) = true ∧
    (step (Event.twilioMsg (TwilioEvent.media (some "QUJD"))) openSession =
       (if ("QUJD" : String) = "" then (openSession, [])
        else (openSession,
              [Action.sendProvider
                 (ProviderFrame.userAudioChunk (b64Reencode "QUJD"))])) ∧
     b64Reencode (String.mk (b64EncodeBytes [65, 66, 67])) =
       String.mk (b64EncodeBytes [65, 66, 67]) ∧
     (step (Event.twilioMsg (TwilioEvent.media none)) openSession).2 = []) :=
  ⟨rfl, by decide,
   media_forward_behavior openSession "QUJD" [65, 66, 67] rfl (by decide)⟩

lemma step_providerClose_closed (c : Nat) (r : String) (t : Session)
    (hcl : t.isClosing = true) :
    (step (Event.providerClose c r) t).2 = [] := by
  simp only [step]
  cases hc : t.providerConn with
  | none => rfl
  | some rs =>
    rw [closeWithCode_noop c r _
      (show ({ t with providerConn := some ReadyState.closed } :
        Session).isClosing = true from hcl)]

/-- C5: a teardown trigger with a code and reason closes the provider leg
with the normal closure code if it is open and the Twilio leg with the same
code and reason if it is open; in particular a provider close event with code
`c` (the socket itself already closed) closes only the Twilio leg, with `c`,
and a duplicate provider close notification produces no further action. -/
theorem provider_close_propagates (s : Session) (c : Nat) (r : String)
    (h : s.isClosing = false) (ht : s.twilioReady = ReadyState.opened)
    (hp : s.providerConn = some ReadyState.opened) :
    (closeWithCode c r s).2 =
      [Action.closeProvider 1000 "Closing normally", Action.closeTwilio c r] ∧
    (step (Event.providerClose c r) s).2 = [Action.closeTwilio c r] ∧
    ((step (Event.providerClose c r) s).1).isClosing = true ∧
    (step (Event.providerClose c r)
        ((step (Event.providerClose c r) s).1)).2 = [] := by
  have e1 : step (Event.providerClose c r) s =
      closeWithCode c r { s with providerConn := some ReadyState.closed } := by
    simp only [step, hp]
  have hcl : ((step (Event.providerClose c r) s).1).isClosing = true := by
    rw [e1]
    exact closeWithCode_isClosing _ _ _
  refine ⟨closeWithCode_open_actions c r s h hp ht, ?_, hcl, ?_⟩
  · rw [e1]
    unfold closeWithCode
    rw [if_neg (by simp [h])]
    simp [ht]
  · exact step_providerClose_closed c r _ hcl

/-- C5 witness: the spec scenario — the provider socket closes with 1011, the
Twilio leg is closed with 1011, and the duplicate notification is a no-op. -/
theorem provider_close_propagates_witness :
    openSession.isClosing = false ∧
    openSession.twilioReady = ReadyState.opened ∧
    openSession.providerConn = some ReadyState.opened ∧
    ((closeWithCode 1011 "upstream gone" openSession).2 =
       [Action.closeProvider 1000 "Closing normally",
        Action.closeTwilio 1011 "upstream gone"] ∧
     (step (Event.providerClose 1011 "upstream gone") openSession).2 =
       [Action.closeTwilio 1011 "upstream gone"] ∧
     ((step (Event.providerClose 1011 "upstream gone") openSession).1).isClosing
       = true ∧
     (step (Event.providerClose 1011 "upstream gone")
         ((step (Event.providerClose 1011 "upstream gone")
             openSession).1)).2 = []) :=
  ⟨rfl, rfl, rfl,
   provider_close_propagates openSession 1011 "upstream gone" rfl rfl rfl⟩

/-- C6: when the signed-URL fetch fails, the session emits no
provider-socket-open action at all and closes the Twilio leg with the
server-error code 1011, leaving the provider connection absent. -/
theorem fetch_failure_closes (s : Session) (e1 url : String)
    (hf : s.fetchPending = true) (h : s.isClosing = false)
    (ht : s.twilioReady = ReadyState.opened) (hp : s.providerConn = none) :
    (step (Event.fetchResolves (Except.error e1)) s).2 =
      [Action.closeTwilio 1011 "Failed to initialize ElevenLabs connection"] ∧
    ((step (Event.fetchResolves (Except.error e1)) s).1).providerConn =
      none ∧
    Action.openProvider url ∉
      (step (Event.fetchResolves (Except.error e1)) s).2 := by
  have e2 : step (Event.fetchResolves (Except.error e1)) s =
      closeWithCode 1011 "Failed to initialize ElevenLabs connection"
        { s with fetchPending := false } := by
    simp only [step, hf, if_true]
  have acts : (step (Event.fetchResolves (Except.error e1)) s).2 =
      [Action.closeTwilio 1011 "Failed to initialize ElevenLabs connection"] := by
    rw [e2]
    unfold closeWithCode
    rw [if_neg (by simp [h])]
    simp [hp, ht]
  refine ⟨acts, ?_, ?_⟩
  · rw [e2, closeWithCode_providerConn_none]
    exact hp
  · rw [acts]
    simp

/-- C6 witness: a pending session whose fetch fails. -/
theorem fetch_failure_closes_witness :
    pendingSession.fetchPending = true ∧
    pendingSession.isClosing = false ∧
    pendingSession.twilioReady = ReadyState.opened ∧
    pendingSession.providerConn = none ∧
    ((step (Event.fetchResolves (Except.error "HTTP 500"))
        pendingSession).2 =
       [Action.closeTwilio 1011
          "Failed to initialize ElevenLabs connection"] ∧
     ((step (Event.fetchResolves (Except.error "HTTP 500"))
         pendingSession).1).providerConn = none ∧
     Action.openProvider "wss://signed-url" ∉
       (step (Event.fetchResolves (Except.error "HTTP 500"))
          pendingSession).2) :=
  ⟨rfl, rfl, rfl, rfl,
   fetch_failure_closes pendingSession "HTTP 500" "wss://signed-url"
     rfl rfl rfl rfl⟩

/-- C7: if the connect timer fires while the provider socket has not reached
the open state, the session begins closing with the connect-timeout code
1006; if the provider opens first, the open handler cancels the timer, and a
subsequent timer event does nothing. -/
theorem connect_timeout_behavior (s t : Session)
    (ha : s.connectTimeoutActive = true) (h : s.isClosing = false)
    (hp : s.providerConn = some ReadyState.connecting)
    (ht : s.twilioReady = ReadyState.opened)
    (hq : t.providerConn = some ReadyState.connecting) :
    (step Event.connectTimerFire s).2 =
      [Action.closeTwilio 1006 "ElevenLabs connection timeout"] ∧
    ((step Event.connectTimerFire s).1).isClosing = true ∧
    ((step Event.providerOpen t).1).connectTimeoutActive = false ∧
    step Event.connectTimerFire ((step Event.providerOpen t).1) =
      ((step Event.providerOpen t).1, []) := by
  have e3 : step Event.connectTimerFire s =
      closeWithCode 1006 "ElevenLabs connection timeout"
        { s with connectTimeoutActive := false } := by
    simp only [step, ha, if_true]
    rw [if_neg (by simp [hp])]
  refine ⟨?_, ?_, ?_, ?_⟩
  · rw [e3]
    unfold closeWithCode
    rw [if_neg (by simp [h])]
    simp [hp, ht]
  · rw [e3]
    exact closeWithCode_isClosing _ _ _
  · simp only [step, hq]
  · simp [step, hq]

/-- C7 witness: a connecting session whose timer fires, and one whose
provider opens before the timer. -/
theorem connect_timeout_behavior_witness :
    (pendingSession.connectTimeoutActive = true → False) ∧
    connectingSession.connectTimeoutActive = true ∧
    connectingSession.isClosing = false ∧
    connectingSession.providerConn = some ReadyState.connecting ∧
    connectingSession.twilioReady = ReadyState.opened ∧
    ((step Event.connectTimerFire connectingSession).2 =
       [Action.closeTwilio 1006 "ElevenLabs connection timeout"] ∧
     ((step Event.connectTimerFire connectingSession).1).isClosing = true ∧
     ((step Event.providerOpen connectingSession).1).connectTimeoutActive =
       false ∧
     step Event.connectTimerFire
         ((step Event.providerOpen connectingSession).1) =
       ((step Event.providerOpen connectingSession).1, [])) :=
  ⟨fun hc => by simp [pendingSession] at hc, rfl, rfl, rfl, rfl,
   connect_timeout_behavior connectingSession connectingSession
     rfl rfl rfl rfl rfl⟩

/-- C8 evidence: the trace [valid start, Twilio close while the fetch is in
flight] leaves the session with `isClosing = true`; when the signed-URL fetch
then resolves successfully, the start continuation — which never re-checks
`isClosing` — still opens a provider WebSocket and arms the connect timer. -/
theorem fetch_after_close_opens_provider :
    ((run closingTrace initSession).1).isClosing = true ∧
    (step (Event.fetchResolves (Except.ok "wss://signed-url"))
        ((run closingTrace initSession).1)).2 =
      [Action.openProvider "wss://signed-url", Action.setConnectTimeout] ∧
    ((step (Event.fetchResolves (Except.ok "wss://signed-url"))
        ((run closingTrace initSession).1)).1).providerConn =
      some ReadyState.connecting := by decide

/-- C9: a provider interruption event, whatever the session's stream
identifier, produces exactly one `{event:"clear", streamSid}` frame to the
telephony leg and no other outbound frame. -/
theorem interruption_clear (sid : Option String) :
    handleElevenLabsMessage sid ElMessage.interruption =
      ElOut.mk [TwilioFrame.clear sid] [] := rfl

/-- C10: the defensive and the lenient `handleElevenLabsMessage` produce
identical outbound frames on every decoded provider message and every value
of the stream identifier. -/
theorem variants_equivalent (sid : Option String) (m : ElMessage) :
    handleElevenLabsMessage sid m = handleElevenLabsMessageLenient sid m := by
  cases m <;> rfl

end Relay
